import Mathlib

/-!
Verification development for an energy-price forecasting pipeline.

The repository under study is a small Python code base built on pandas:
data loaders (`data_ingestion.py`), a degree-day feature transform,
model adapters (`arimax.py`, `arimax_garch.py`, `vecm_garch.py`), a
sentiment adapter (`sentiment_integration.py`) and an orchestrator
(`forecasting_pipeline.py`).  This file gives a shallow embedding of the
parts of that code the verified properties need, and proves the
properties.

Modelling conventions, used throughout:

* A pandas scalar cell is modelled by `Cell`: a rational number
  (`Cell.num`), the missing-value marker NaN (`Cell.nan`), or a
  non-numeric text payload (`Cell.str`).  A cell whose text is parseable
  as a number is represented directly as `Cell.num`, matching what the
  numeric coercions of the code produce for it.
* A pandas index label is modelled by `PIdx`: either a position of a
  default `RangeIndex` (`PIdx.pos`, what `pd.Series([...])` and
  `pd.DataFrame(dict)` create when no index is passed) or a timestamp of
  a `DatetimeIndex` (`PIdx.ts`, with timestamps as integers).
* A `DataFrame` is an index (label list plus the optional `freq`
  attribute of the index object) together with named columns in order;
  a `Series` is an index label list with values.
* Delegated statistical backends (`statsmodels` ARIMA / VECM, `arch`,
  `transformers`) are black boxes behind the import guards of the code;
  each is modelled as an `Option` of an abstract function bundle, `none`
  meaning the import failed (degraded mode).
* Fallible pandas operations (raising `KeyError` / `IndexError` /
  `ValueError`) are modelled with `Option`.
-/

/-- Scalar cell of a loaded table: numeric value, missing marker, or
non-numeric text. -/
inductive Cell where
  | num (q : ℚ)
  | nan
  | str (s : String)
deriving DecidableEq

/-- Index label: default positional (RangeIndex) or timestamp
(DatetimeIndex). -/
inductive PIdx where
  | pos (n : ℕ)
  | ts (t : ℤ)
deriving DecidableEq

/-- A pandas index object: its labels and its optional `freq` attribute. -/
structure DFIndex where
  keys : List PIdx
  freq : Option ℤ
deriving DecidableEq

/-- A pandas DataFrame: an index and ordered named columns. -/
structure DataFrame where
  index : DFIndex
  cols : List (String × List Cell)
deriving DecidableEq

/-- A pandas Series: index labels and values. -/
structure Series where
  index : List PIdx
  values : List Cell
deriving DecidableEq

/-- Raw contents of a CSV file as `pd.read_csv(path, parse_dates=True,
index_col=0)` sees them: parsed timestamps of the first column, and the
remaining columns' cells (numeric where parseable, text otherwise). -/
structure RawTable where
  index : List ℤ
  cols : List (String × List Cell)
deriving DecidableEq

/-- A Series built from plain values, as `pd.Series(list)`: default
positional RangeIndex `0 .. length-1`. -/
def defaultSeries (vals : List Cell) : Series :=
  { index := (List.range vals.length).map PIdx.pos, values := vals }

/-- Semantics of `pd.to_numeric(cell, errors="coerce")`: numeric stays,
missing stays missing, unparseable text degrades to NaN. -/
def toNumericCell : Cell → Cell
  | Cell.num q => Cell.num q
  | Cell.nan => Cell.nan
  | Cell.str _ => Cell.nan

/-- Semantics of `.astype(float)` on one cell: numeric and missing pass
through, non-numeric text raises (modelled as `none`). -/
def astypeFloatCell : Cell → Option Cell
  | Cell.num q => some (Cell.num q)
  | Cell.nan => some Cell.nan
  | Cell.str _ => none

/-- Semantics of `.astype(float)` on a whole column: it succeeds exactly
when every cell converts, elementwise. -/
def astypeFloatList : List Cell → Option (List Cell)
  | [] => some []
  | c :: cs =>
    match astypeFloatCell c, astypeFloatList cs with
    | some v, some vs => some (v :: vs)
    | _, _ => none

/-- A cell is numeric-or-missing (no text payload survived coercion). -/
def cellNumeric : Cell → Bool
  | Cell.str _ => false
  | _ => true

/-- Column lookup `df[name]` on the value columns, `none` for a missing
column (KeyError). -/
def getCol (df : DataFrame) (name : String) : Option (List Cell) :=
  (df.cols.find? (fun c => c.1 == name)).map (fun c => c.2)

/-- `data_ingestion.load_price_data`: read the CSV with the first column
parsed as the timestamp index, then coerce every value column with
`pd.to_numeric(..., errors="coerce")`.  Row order of the file is kept;
nothing is sorted or validated. -/
def load_price_data (raw : RawTable) : DataFrame :=
  { index := { keys := raw.index.map PIdx.ts, freq := none },
    cols := raw.cols.map (fun c => (c.1, c.2.map toNumericCell)) }

/-- `data_ingestion.load_weather_data`: read the CSV the same way, then
coerce only the `temperature` column (`df["temperature"] =
pd.to_numeric(df["temperature"], errors="coerce")`); a missing
`temperature` column raises (KeyError), modelled as `none`.  Other
columns are returned untouched. -/
def load_weather_data (raw : RawTable) : Option DataFrame :=
  if raw.cols.any (fun c => c.1 == "temperature") then
    some { index := { keys := raw.index.map PIdx.ts, freq := none },
           cols := raw.cols.map (fun c =>
             if c.1 == "temperature" then (c.1, c.2.map toNumericCell) else c) }
  else none

/-- `data_ingestion.load_sentiment_scores`: read the CSV, take the first
value column (`df.iloc[:, 0]`, IndexError on a columnless table) and
convert it with `.astype(float)` (raising on non-numeric text).  Any
further columns are ignored. -/
def load_sentiment_scores (raw : RawTable) : Option Series :=
  match raw.cols with
  | [] => none
  | c :: _ =>
    (astypeFloatList c.2).map (fun vals =>
      { index := raw.index.map PIdx.ts, values := vals })

/-- ASCII lowercasing, the semantics of `.lower()` on the classifier
labels at issue (plain ASCII words). -/
def strLower (s : String) : String := ⟨s.data.map Char.toLower⟩

/-- Elementwise heating degree days, `np.maximum(0, base - temp)`;
`np.maximum` propagates NaN. -/
def hddCell (base : ℚ) : Cell → Cell
  | Cell.num t => Cell.num (max 0 (base - t))
  | _ => Cell.nan

/-- Elementwise cooling degree days, `np.maximum(0, temp - base)`. -/
def cddCell (base : ℚ) : Cell → Cell
  | Cell.num t => Cell.num (max 0 (t - base))
  | _ => Cell.nan

/-- `data_ingestion.compute_degree_days`: coerce the input with
`.astype(float)` (raising on text, modelled as `none`), then build the
two-column frame with `HDD = max(0, base - t)` and `CDD = max(0, t -
base)` on the input's index.  In the code `base_temperature` defaults to
`18.0`; callers relying on the default are modelled by passing `18`. -/
def compute_degree_days (temperature : Series) (base_temperature : ℚ) :
    Option DataFrame :=
  (astypeFloatList temperature.values).map (fun temp =>
    { index := { keys := temperature.index, freq := none },
      cols := [("HDD", temp.map (hddCell base_temperature)),
               ("CDD", temp.map (cddCell base_temperature))] })

example :
    load_price_data { index := [3, 1], cols := [("p", [Cell.str "x", Cell.num 2])] } =
    { index := { keys := [PIdx.ts 3, PIdx.ts 1], freq := none },
      cols := [("p", [Cell.nan, Cell.num 2])] } := by decide

/-- Comparison of two index labels of the same kind; labels of different
kinds are incomparable (pandas raises on mixed comparisons, which no
homogeneous-index call path reaches). -/
def pidxLE : PIdx → PIdx → Bool
  | PIdx.pos m, PIdx.pos n => decide (m ≤ n)
  | PIdx.ts s, PIdx.ts t => decide (s ≤ t)
  | _, _ => false

/-- Strict counterpart of `pidxLE`. -/
def pidxLT : PIdx → PIdx → Bool
  | PIdx.pos m, PIdx.pos n => decide (m < n)
  | PIdx.ts s, PIdx.ts t => decide (s < t)
  | _, _ => false

/-- Strict monotonicity of a label list (the pandas precondition for
`reindex(..., method="ffill")`, `index.is_monotonic_increasing` without
duplicates). -/
def strictSorted : List PIdx → Bool
  | [] => true
  | [_] => true
  | a :: b :: rest => pidxLT a b && strictSorted (b :: rest)

/-- Strict monotonicity of raw integer timestamps. -/
def strictSortedZ : List ℤ → Bool
  | [] => true
  | [_] => true
  | a :: b :: rest => decide (a < b) && strictSortedZ (b :: rest)

/-- Forward-fill lookup of one target label: the value stored at the
greatest source label `≤ t` (an exact hit included, and the stored value
is taken even when it is NaN), or NaN when every source label is greater. -/
def ffillLookup (keys : List PIdx) (vals : List Cell) (t : PIdx) : Cell :=
  match ((keys.zip vals).filter (fun p => pidxLE p.1 t)).getLast? with
  | some p => p.2
  | none => Cell.nan

/-- `df.reindex(target, method="ffill")`: pandas requires the source
index to be monotonic (else it raises, modelled as `none`); each column
is re-keyed onto the target labels by forward-fill lookup, and the
result carries the target index object (labels and freq). -/
def reindexFfill (df : DataFrame) (target : DFIndex) : Option DataFrame :=
  if strictSorted df.index.keys then
    some { index := target,
           cols := df.cols.map (fun c =>
             (c.1, target.keys.map (ffillLookup df.index.keys c.2))) }
  else none

/-- `series.reindex(target, method="ffill")`, same semantics for a
Series. -/
def seriesReindexFfill (s : Series) (target : List PIdx) : Option Series :=
  if strictSorted s.index then
    some { index := target, values := target.map (ffillLookup s.index s.values) }
  else none

/-- Column assignment `df[name] = vals`: replace the column in place when
the name exists, append it otherwise. -/
def setCol (df : DataFrame) (name : String) (vals : List Cell) : DataFrame :=
  if df.cols.any (fun c => c.1 == name) then
    { df with cols := df.cols.map (fun c => if c.1 == name then (c.1, vals) else c) }
  else
    { df with cols := df.cols ++ [(name, vals)] }

/-- `df.iloc[:, 0]`: the first value column as a Series carrying the
frame's index labels; IndexError (`none`) on a columnless frame. -/
def ilocCol0 (df : DataFrame) : Option Series :=
  df.cols.head?.map (fun c => { index := df.index.keys, values := c.2 })

/-- `df.iloc[-n:]` row slicing as used for the trailing exogenous rows:
`-0:` selects the whole frame, otherwise the last `n` rows. -/
def tailRows (n : ℕ) (df : DataFrame) : DataFrame :=
  if n = 0 then df
  else
    { index := { keys := df.index.keys.drop (df.index.keys.length - n),
                 freq := df.index.freq },
      cols := df.cols.map (fun c => (c.1, c.2.drop (c.2.length - n))) }

/-- Black-box result of `ARIMA(series, order=..., exog=...).fit()`: its
in-sample residuals and its
`get_forecast(steps, exog).predicted_mean`. -/
structure FittedMean where
  resid : Series
  predictedMean : ℕ → Option DataFrame → Series

/-- Black-box result of `arch_model(resid, p, q).fit(disp="off")`: the
last row of `forecast(horizon).variance`. -/
structure FittedVol where
  varianceRow : ℕ → Series

/-- Black-box result of `VECM(series, ...).fit()`: `predict(steps)` as a
row-major matrix. -/
structure FittedVecm where
  predict : ℕ → List (List ℚ)

/-- The `statsmodels` ARIMA estimator behind the import guard:
`ARIMA(series, order, exog)` composed with `.fit()`. -/
def ArimaBackend : Type :=
  Series → ℤ × ℤ × ℤ → Option DataFrame → FittedMean

/-- The `arch` estimator behind the import guard: `arch_model(resid, p,
q)` composed with `.fit(disp="off")`. -/
def ArchBackend : Type :=
  Series → ℕ → ℕ → FittedVol

/-- The `statsmodels` VECM estimator behind the import guard:
`VECM(series, deterministic, k_ar_diff, coint_rank)` composed with
`.fit()`. -/
def VecmBackend : Type :=
  DataFrame → ℤ → ℕ → Option ℕ → FittedVecm

/-- `arimax.fit_arimax`: when the `statsmodels` import failed the guard
returns `pd.Series([float('nan')] * forecast_steps)`; otherwise the
fitted model's point forecast over the horizon, feeding the trailing
`forecast_steps` exogenous rows as the future regressors.  Python
defaults: `exog=None`, `order=(1, 0, 1)`, `forecast_steps=24`. -/
def fit_arimax (backend : Option ArimaBackend) (series : Series)
    (exog : Option DataFrame) (order : ℤ × ℤ × ℤ) (forecast_steps : ℕ) :
    Series :=
  match backend with
  | none => defaultSeries (List.replicate forecast_steps Cell.nan)
  | some fit =>
    (fit series order exog).predictedMean forecast_steps
      (exog.map (tailRows forecast_steps))

/-- Container mirroring `arimax_garch.ArimaxGarchResult`. -/
structure ArimaxGarchResult where
  mean_model : Option FittedMean
  vol_model : Option FittedVol
  forecast_mean : Series
  forecast_vol : Series

/-- `arimax_garch.fit_arimax_garch`: when either import failed
(`ARIMA is None or arch_model is None`) return the empty bundle with two
NaN placeholder series of the horizon's length; otherwise fit the mean
model, fit the volatility model on its residuals, and forecast both.
Python defaults: `arima_order=(1, 0, 1)`, `garch_order=(1, 1)`,
`forecast_steps=24`. -/
def fit_arimax_garch (arimaBackend : Option ArimaBackend)
    (archBackend : Option ArchBackend) (series : Series)
    (exog : Option DataFrame) (arima_order : ℤ × ℤ × ℤ)
    (garch_order : ℕ × ℕ) (forecast_steps : ℕ) : ArimaxGarchResult :=
  match arimaBackend, archBackend with
  | some arimaFit, some archFit =>
    let fitted := arimaFit series arima_order exog
    let garch_fit := archFit fitted.resid garch_order.1 garch_order.2
    { mean_model := some fitted,
      vol_model := some garch_fit,
      forecast_mean := fitted.predictedMean forecast_steps
        (exog.map (tailRows forecast_steps)),
      forecast_vol := garch_fit.varianceRow forecast_steps }
  | _, _ =>
    { mean_model := none,
      vol_model := none,
      forecast_mean := defaultSeries (List.replicate forecast_steps Cell.nan),
      forecast_vol := defaultSeries (List.replicate forecast_steps Cell.nan) }

/-- Container mirroring `vecm_garch.VecmGarchResult`. -/
structure VecmGarchResult where
  vecm_model : Option FittedVecm
  forecast : DataFrame

/-- Columns of `pd.DataFrame(matrix, index, columns)` from a row-major
matrix: the j-th name is paired with the j-th entry of every row. -/
def colsFromMatrix (names : List String) (mat : List (List ℚ)) :
    List (String × List Cell) :=
  names.enum.map (fun jn =>
    (jn.2, mat.map (fun row =>
      match row.get? jn.1 with
      | some q => Cell.num q
      | none => Cell.nan)))

/-- `vecm_garch.fit_vecm_garch`: when the `statsmodels` import failed,
return `pd.DataFrame({col: [nan]*steps for col in series.columns},
columns=series.columns)` — same columns, all-NaN values, and the default
RangeIndex that construction produces (`0 .. steps-1` when at least one
column exists, empty when the input frame has no columns, since an empty
dict yields a zero-row frame).  Otherwise fit, predict, and index the
forecast by `pd.date_range(start=series.index[-1], periods=steps+1,
freq=series.index.freq)[1:]` (raising, modelled `none`, when the index
is empty, not timestamps, or has no freq).  Python defaults:
`det_order=0`, `k_ar_diff=1`, `cointegr_rank=None`,
`forecast_steps=24`. -/
def fit_vecm_garch (backend : Option VecmBackend) (series : DataFrame)
    (det_order : ℤ) (k_ar_diff : ℕ) (cointegr_rank : Option ℕ)
    (forecast_steps : ℕ) : Option VecmGarchResult :=
  match backend with
  | none =>
    some { vecm_model := none,
           forecast :=
             { index := { keys := if series.cols.isEmpty then []
                            else (List.range forecast_steps).map PIdx.pos,
                          freq := none },
               cols := series.cols.map (fun c =>
                 (c.1, List.replicate forecast_steps Cell.nan)) } }
  | some fit =>
    let vecm_res := fit series det_order k_ar_diff cointegr_rank
    match series.index.keys.getLast?, series.index.freq with
    | some (PIdx.ts last), some f =>
      some { vecm_model := some vecm_res,
             forecast :=
               { index := { keys := (List.range forecast_steps).map
                              (fun i => PIdx.ts (last + f * ((i : ℤ) + 1))),
                            freq := some f },
                 cols := colsFromMatrix (series.cols.map (fun c => c.1))
                   (vecm_res.predict forecast_steps) } }
    | _, _ => none

/-- `sentiment_integration.compute_finbert_sentiment`: with the
`transformers` import failed, `pd.Series([0.0] * len(list(texts)))`;
otherwise one classifier call per text, mapping the lowercased label to
`+score` for "positive", `-score` for "negative" and `0.0` otherwise.
The classifier (`pipeline("sentiment-analysis", ...)` applied to a text,
first result's label and score) is the black box `String → String × ℚ`. -/
def compute_finbert_sentiment (clf : Option (String → String × ℚ))
    (texts : List String) : Series :=
  match clf with
  | none => defaultSeries (List.replicate texts.length (Cell.num 0))
  | some f =>
    defaultSeries (texts.map (fun t =>
      let r := f t
      let label := strLower r.1
      if label = "positive" then Cell.num r.2
      else if label = "negative" then Cell.num (-r.2)
      else Cell.num 0))

/-- Container mirroring `forecasting_pipeline.PipelineResult`. -/
structure PipelineResult where
  arimax_forecast : Option Series
  arimax_garch_mean : Option Series
  arimax_garch_vol : Option Series
  vecm_forecast : Option DataFrame
deriving DecidableEq

/-- `forecasting_pipeline.run_pipeline`: load the price and weather
tables, derive degree days (base defaulted to 18) from the weather
table's `temperature` column, forward-fill them onto the price index,
optionally merge a forward-filled sentiment column, fit the ARIMAX and
ARIMAX-GARCH adapters on the first price column with that exogenous
table, fit the VECM adapter on the full price table only when it has
more than one column, and assemble the result bundle.  Unhandled Python
exceptions along the way (missing columns, non-numeric temperatures,
non-monotonic reindex sources, columnless price table) propagate as
`none`.  Python default: `forecast_steps=24`. -/
def run_pipeline (arimaBackend : Option ArimaBackend)
    (archBackend : Option ArchBackend) (vecmBackend : Option VecmBackend)
    (priceRaw weatherRaw : RawTable) (sentimentRaw : Option RawTable)
    (forecast_steps : ℕ) : Option PipelineResult :=
  let price_df := load_price_data priceRaw
  (load_weather_data weatherRaw).bind (fun weather_df =>
  (getCol weather_df "temperature").bind (fun tempVals =>
  (compute_degree_days { index := weather_df.index.keys, values := tempVals } 18).bind
    (fun degree_days =>
  (reindexFfill degree_days price_df.index).bind (fun exogBase =>
  (match sentimentRaw with
   | none => some exogBase
   | some sraw =>
     (load_sentiment_scores sraw).bind (fun sentiment =>
     (seriesReindexFfill sentiment price_df.index.keys).map (fun (aligned : Series) =>
     setCol exogBase "sentiment" aligned.values))).bind (fun exog =>
  (ilocCol0 price_df).bind (fun target =>
  let arimax_forecast :=
    fit_arimax arimaBackend target (some exog) (1, 0, 1) forecast_steps
  let result_garch :=
    fit_arimax_garch arimaBackend archBackend target (some exog)
      (1, 0, 1) (1, 1) forecast_steps
  (if 1 < price_df.cols.length then
    (fit_vecm_garch vecmBackend price_df 0 1 none forecast_steps).map
      (fun (r : VecmGarchResult) => some r.forecast)
   else some none).map (fun vecmF =>
  { arimax_forecast := some arimax_forecast,
    arimax_garch_mean := some result_garch.forecast_mean,
    arimax_garch_vol := some result_garch.forecast_vol,
    vecm_forecast := vecmF })))))))

lemma pidxLE_refl (a : PIdx) : pidxLE a a = true := by
  cases a <;> simp [pidxLE]

lemma pidxLT_trans {a b c : PIdx} (h1 : pidxLT a b = true)
    (h2 : pidxLT b c = true) : pidxLT a c = true := by
  cases a <;> cases b <;> cases c <;> simp_all [pidxLT] <;> omega

lemma pidxLE_of_lt {a b : PIdx} (h : pidxLT a b = true) : pidxLE a b = true := by
  cases a <;> cases b <;> simp_all [pidxLT, pidxLE] <;> omega

lemma pidxLE_false_of_lt {a b : PIdx} (h : pidxLT a b = true) :
    pidxLE b a = false := by
  cases a <;> cases b <;> simp_all [pidxLT, pidxLE]

lemma strictSorted_tail {a : PIdx} {l : List PIdx}
    (h : strictSorted (a :: l) = true) : strictSorted l = true := by
  cases l with
  | nil => rfl
  | cons b rest =>
    have h2 := h
    unfold strictSorted at h2
    exact (Bool.and_eq_true .. ▸ h2).2

lemma strictSorted_head_lt {a : PIdx} {l : List PIdx}
    (h : strictSorted (a :: l) = true) : ∀ b ∈ l, pidxLT a b = true := by
  induction l generalizing a with
  | nil => intro b hb; cases hb
  | cons c rest ih =>
    intro b hb
    have h1 : pidxLT a c = true := by
      have h2 := h
      unfold strictSorted at h2
      exact (Bool.and_eq_true .. ▸ h2).1
    rcases List.mem_cons.mp hb with rfl | hb
    · exact h1
    · exact pidxLT_trans h1 (ih (strictSorted_tail h) b hb)

lemma ffillLookup_self (keys : List PIdx) (vals : List Cell)
    (hs : strictSorted keys = true) (hlen : vals.length = keys.length)
    (i : ℕ) (hik : i < keys.length) (hiv : i < vals.length) :
    ffillLookup keys vals keys[i] = vals[i] := by
  induction keys generalizing vals i with
  | nil => simp at hik
  | cons a ks ih =>
    cases vals with
    | nil => simp at hiv
    | cons v vs =>
      cases i with
      | zero =>
        show ffillLookup (a :: ks) (v :: vs) a = v
        have hrest : (ks.zip vs).filter (fun p => pidxLE p.1 a) = [] := by
          rw [List.filter_eq_nil_iff]
          intro p hp
          have hk := (List.of_mem_zip hp).1
          have hfa := pidxLE_false_of_lt (strictSorted_head_lt hs p.1 hk)
          simp [hfa]
        unfold ffillLookup
        rw [List.zip_cons_cons, List.filter_cons]
        simp [pidxLE_refl, hrest]
      | succ j =>
        have hks : strictSorted ks = true := strictSorted_tail hs
        have hjk : j < ks.length := by simpa using hik
        have hjv : j < vs.length := by simpa using hiv
        have hlen2 : vs.length = ks.length := by simpa using hlen
        have hget1 : (a :: ks)[j + 1] = ks[j] := by simp
        have hget2 : (v :: vs)[j + 1] = vs[j] := by simp
        rw [hget1, hget2]
        have hat : pidxLT a ks[j] = true :=
          strictSorted_head_lt hs ks[j] (by exact List.getElem_mem hjk)
        have step : ffillLookup (a :: ks) (v :: vs) ks[j] = ffillLookup ks vs ks[j] := by
          unfold ffillLookup
          rw [List.zip_cons_cons, List.filter_cons]
          have hle : pidxLE a ks[j] = true := pidxLE_of_lt hat
          simp only [hle, if_true]
          have hz : j < (ks.zip vs).length := by
            rw [List.length_zip]; omega
          have hzj : (ks.zip vs)[j] = (ks[j], vs[j]) := by
            simp [List.getElem_zip]
          have hmem : (ks.zip vs)[j] ∈ (ks.zip vs).filter (fun p => pidxLE p.1 ks[j]) := by
            rw [List.mem_filter]
            refine ⟨List.getElem_mem hz, ?_⟩
            rw [hzj]
            exact pidxLE_refl _
          obtain ⟨x, L, hL⟩ :=
            List.exists_cons_of_ne_nil (List.ne_nil_of_mem hmem)
          rw [hL, List.getLast?_cons_cons]
        rw [step]
        exact ih vs hks hlen2 j hjk hjv

lemma ffillLookup_mem (keys : List PIdx) (vals : List Cell) (t : PIdx) :
    ffillLookup keys vals t = Cell.nan ∨ ffillLookup keys vals t ∈ vals := by
  unfold ffillLookup
  cases hL : ((keys.zip vals).filter (fun p => pidxLE p.1 t)).getLast? with
  | none => left; rfl
  | some p =>
    right
    have hp := List.mem_of_getLast?_eq_some hL
    have hz := (List.mem_filter.mp hp).1
    exact (List.of_mem_zip hz).2

lemma astypeFloatList_getElem? {l l' : List Cell}
    (h : astypeFloatList l = some l') (i : ℕ) :
    l'[i]? = (l[i]?).bind astypeFloatCell := by
  induction l generalizing l' i with
  | nil =>
    simp only [astypeFloatList, Option.some.injEq] at h
    subst h
    simp
  | cons c cs ih =>
    cases hc : astypeFloatCell c with
    | none => simp [astypeFloatList, hc] at h
    | some v =>
      cases hcs : astypeFloatList cs with
      | none => simp [astypeFloatList, hc, hcs] at h
      | some vs =>
        have hl : l' = v :: vs := by
          simp [astypeFloatList, hc, hcs] at h
          exact h.symm
        subst hl
        cases i with
        | zero => simp [hc]
        | succ j => simpa using ih hcs j

/-- A label is a default RangeIndex position (as opposed to a timestamp). -/
def isPos : PIdx → Bool
  | PIdx.pos _ => true
  | PIdx.ts _ => false

/-- C8: with the sentiment backend unavailable,
`compute_finbert_sentiment` returns a sequence whose length equals the
number of input documents and whose every entry is exactly `0.0`. -/
theorem c8_sentiment_degraded (texts : List String) :
    (compute_finbert_sentiment none texts).values =
      List.replicate texts.length (Cell.num 0) ∧
    (compute_finbert_sentiment none texts).values.length = texts.length := by
  refine ⟨rfl, ?_⟩
  simp [compute_finbert_sentiment, defaultSeries]

/-- C9: in degraded mode the placeholder forecasts of `fit_arimax` and
`fit_arimax_garch` are indexed by the integer positions `0 .. horizon-1`
(the default positional index of `pd.Series(list)`), every label a
position and none a timestamp continuing the input series' index. -/
theorem c9_degraded_positional_index (series : Series)
    (exog : Option DataFrame) (order : ℤ × ℤ × ℤ) (garch_order : ℕ × ℕ)
    (h : ℕ) (archBackend : Option ArchBackend) :
    (fit_arimax none series exog order h).index =
      (List.range h).map PIdx.pos ∧
    (fit_arimax_garch none archBackend series exog order garch_order
        h).forecast_mean.index = (List.range h).map PIdx.pos ∧
    (fit_arimax_garch none archBackend series exog order garch_order
        h).forecast_vol.index = (List.range h).map PIdx.pos ∧
    ((fit_arimax none series exog order h).index.all isPos) = true := by
  refine ⟨?_, ?_, ?_, ?_⟩ <;>
    simp [fit_arimax, fit_arimax_garch, defaultSeries, isPos, List.all_eq_true]

/-- C10: `load_sentiment_scores` never checks the single-value-column
assumption: on a table whose first value column converts to float it
returns exactly that column, and any further columns are silently
discarded (the result is the same as for the table holding the first
column alone). -/
theorem c10_first_column (idx : List ℤ) (c : String × List Cell)
    (rest : List (String × List Cell)) (vals : List Cell)
    (hv : astypeFloatList c.2 = some vals) :
    load_sentiment_scores { index := idx, cols := c :: rest } =
      some { index := idx.map PIdx.ts, values := vals } ∧
    load_sentiment_scores { index := idx, cols := c :: rest } =
      load_sentiment_scores { index := idx, cols := [c] } := by
  constructor <;> simp [load_sentiment_scores, hv]

/-- Witness for `c10_first_column`: a two-column sentiment file, the
second column discarded. -/
theorem c10_first_column_witness :
    load_sentiment_scores
      { index := [0, 1],
        cols := [("sentiment", [Cell.num 1, Cell.nan]),
                 ("extra", [Cell.str "x", Cell.num 5])] } =
      some { index := [PIdx.ts 0, PIdx.ts 1],
             values := [Cell.num 1, Cell.nan] } ∧
    load_sentiment_scores
      { index := [0, 1],
        cols := [("sentiment", [Cell.num 1, Cell.nan]),
                 ("extra", [Cell.str "x", Cell.num 5])] } =
      load_sentiment_scores
        { index := [0, 1], cols := [("sentiment", [Cell.num 1, Cell.nan])] } :=
  c10_first_column [0, 1] ("sentiment", [Cell.num 1, Cell.nan])
    [("extra", [Cell.str "x", Cell.num 5])] [Cell.num 1, Cell.nan] (by decide)

/-- C2: `compute_degree_days` is the elementwise pair
`HDD = max(0, base - t)`, `CDD = max(0, t - base)` on every numeric
temperature observation, and those two values satisfy the degree-day
algebra: `HDD + (t - base) = CDD` when `t ≥ base`, both are nonnegative,
and exactly one of them is nonzero when `t ≠ base`.  (The code's default
`base_temperature` is 18; the quantified `b` covers it.) -/
theorem c2_degree_days (s : Series) (b t : ℚ) (i : ℕ) (df : DataFrame)
    (hdf : compute_degree_days s b = some df)
    (hv : s.values[i]? = some (Cell.num t)) :
    (getCol df "HDD").bind (fun l => l[i]?) =
      some (Cell.num (max 0 (b - t))) ∧
    (getCol df "CDD").bind (fun l => l[i]?) =
      some (Cell.num (max 0 (t - b))) ∧
    (b ≤ t → max 0 (b - t) + (t - b) = max 0 (t - b)) ∧
    0 ≤ max 0 (b - t) ∧ 0 ≤ max 0 (t - b) ∧
    (t ≠ b →
      (max 0 (b - t) ≠ 0 ∧ max 0 (t - b) = 0) ∨
      (max 0 (b - t) = 0 ∧ max 0 (t - b) ≠ 0)) := by
  cases hm : astypeFloatList s.values with
  | none => simp [compute_degree_days, hm] at hdf
  | some temp =>
    have hdf2 : df =
        { index := { keys := s.index, freq := none },
          cols := [("HDD", temp.map (hddCell b)),
                   ("CDD", temp.map (cddCell b))] } := by
      simp [compute_degree_days, hm] at hdf
      exact hdf.symm
    subst hdf2
    have htemp : temp[i]? = some (Cell.num t) := by
      rw [astypeFloatList_getElem? hm i, hv]
      rfl
    refine ⟨?_, ?_, ?_, le_max_left 0 (b - t), le_max_left 0 (t - b), ?_⟩
    · simp [getCol, List.find?, htemp, hddCell]
    · simp [getCol, List.find?, htemp, cddCell]
    · intro hle
      rw [max_eq_left (by linarith), max_eq_right (by linarith)]
      ring
    · intro hne
      rcases lt_or_gt_of_ne hne with hlt | hgt
      · left
        constructor
        · rw [max_eq_right (by linarith)]
          intro hz
          have : t = b := by linarith
          exact hne this
        · rw [max_eq_left (by linarith)]
      · right
        constructor
        · rw [max_eq_left (by linarith)]
        · rw [max_eq_right (by linarith)]
          intro hz
          have : t = b := by linarith
          exact hne this

/-- Witness for `c2_degree_days`: one observation with temperature 21
against base 18 gives HDD 0, CDD 3. -/
theorem c2_degree_days_witness :
    (getCol
        { index := { keys := [PIdx.ts 0], freq := none },
          cols := [("HDD", [Cell.num (max 0 ((18 : ℚ) - 21))]),
                   ("CDD", [Cell.num (max 0 ((21 : ℚ) - 18))])] } "HDD").bind
      (fun l => l[0]?) = some (Cell.num (max 0 ((18 : ℚ) - 21))) ∧
    (getCol
        { index := { keys := [PIdx.ts 0], freq := none },
          cols := [("HDD", [Cell.num (max 0 ((18 : ℚ) - 21))]),
                   ("CDD", [Cell.num (max 0 ((21 : ℚ) - 18))])] } "CDD").bind
      (fun l => l[0]?) = some (Cell.num (max 0 ((21 : ℚ) - 18))) ∧
    ((18 : ℚ) ≤ 21 →
      max 0 ((18 : ℚ) - 21) + (21 - 18) = max 0 ((21 : ℚ) - 18)) ∧
    (0 : ℚ) ≤ max 0 ((18 : ℚ) - 21) ∧ (0 : ℚ) ≤ max 0 ((21 : ℚ) - 18) ∧
    ((21 : ℚ) ≠ 18 →
      (max 0 ((18 : ℚ) - 21) ≠ 0 ∧ max 0 ((21 : ℚ) - 18) = 0) ∨
      (max 0 ((18 : ℚ) - 21) = 0 ∧ max 0 ((21 : ℚ) - 18) ≠ 0)) :=
  c2_degree_days { index := [PIdx.ts 0], values := [Cell.num 21] } 18 21 0
    { index := { keys := [PIdx.ts 0], freq := none },
      cols := [("HDD", [Cell.num (max 0 ((18 : ℚ) - 21))]),
               ("CDD", [Cell.num (max 0 ((21 : ℚ) - 18))])] }
    (by rfl) (by decide)

/-- C4: with the backend present, `compute_finbert_sentiment` maps the
classifier's three-way label on each document to a signed score:
"positive" with confidence `c` to `+c`, "negative" to `-c`, and
"neutral" to exactly `0` regardless of confidence. -/
theorem c4_label_mapping (clf : String → String × ℚ) (texts : List String)
    (i : ℕ) (doc : String) (lab : String) (c : ℚ)
    (hdoc : texts[i]? = some doc) (hclf : clf doc = (lab, c)) :
    (lab = "positive" →
      (compute_finbert_sentiment (some clf) texts).values[i]? =
        some (Cell.num c)) ∧
    (lab = "negative" →
      (compute_finbert_sentiment (some clf) texts).values[i]? =
        some (Cell.num (-c))) ∧
    (lab = "neutral" →
      (compute_finbert_sentiment (some clf) texts).values[i]? =
        some (Cell.num 0)) := by
  have hval : ∀ x : Cell,
      (texts.map (fun t =>
        let r := clf t
        let label := strLower r.1
        if label = "positive" then Cell.num r.2
        else if label = "negative" then Cell.num (-r.2)
        else Cell.num 0))[i]? = some x ↔
      (let r := clf doc
       let label := strLower r.1
       if label = "positive" then Cell.num r.2
       else if label = "negative" then Cell.num (-r.2)
       else Cell.num 0) = x := by
    intro x
    rw [List.getElem?_map, hdoc]
    simp
  refine ⟨?_, ?_, ?_⟩ <;> intro hl <;> subst hl <;>
    [skip; skip; skip] <;>
    show (compute_finbert_sentiment (some clf) texts).values[i]? = _
  · have := (hval (Cell.num c)).mpr (by rw [hclf]; simp [strLower])
    exact this
  · have := (hval (Cell.num (-c))).mpr (by rw [hclf]; simp [strLower])
    exact this
  · have := (hval (Cell.num 0)).mpr (by rw [hclf]; simp [strLower])
    exact this

/-- Classifier fixture for the witness of `c4_label_mapping`: "up" is
positive with confidence 0.9, "down" negative with confidence 0.7,
anything else neutral with confidence 0.5. -/
def c4clf (t : String) : String × ℚ :=
  if t = "up" then ("positive", 9 / 10)
  else if t = "down" then ("negative", 7 / 10)
  else ("neutral", 1 / 2)

/-- Witness for `c4_label_mapping` at the claim's concrete instances:
("positive", 0.9) scores +0.9, ("negative", 0.7) scores -0.7, and
("neutral", 0.5) scores 0. -/
theorem c4_label_mapping_witness :
    ("positive" = "positive" →
      (compute_finbert_sentiment (some c4clf) ["up", "down", "flat"]).values[0]? =
        some (Cell.num (9 / 10))) ∧
    ("negative" = "negative" →
      (compute_finbert_sentiment (some c4clf) ["up", "down", "flat"]).values[1]? =
        some (Cell.num (-(7 / 10)))) ∧
    ("neutral" = "neutral" →
      (compute_finbert_sentiment (some c4clf) ["up", "down", "flat"]).values[2]? =
        some (Cell.num 0)) :=
  ⟨(c4_label_mapping c4clf ["up", "down", "flat"] 0 "up" "positive" (9 / 10)
      (by decide) (by rfl)).1,
   (c4_label_mapping c4clf ["up", "down", "flat"] 1 "down" "negative" (7 / 10)
      (by decide) (by rfl)).2.1,
   (c4_label_mapping c4clf ["up", "down", "flat"] 2 "flat" "neutral" (1 / 2)
      (by decide) (by rfl)).2.2⟩

/-- Counterexample to C1 as stated: at a columnless input table (an
empty `pd.DataFrame()` is a valid multivariate input) the degraded
`fit_vecm_garch` builds `pd.DataFrame({}, columns=[])`, a zero-row
frame, so the forecast does not have `h = 24` all-missing rows. -/
theorem c1_counterexample :
    ((fit_vecm_garch none
        { index := { keys := [PIdx.ts 0, PIdx.ts 1, PIdx.ts 2], freq := none },
          cols := [] } 0 1 none 24).map
      (fun (r : VecmGarchResult) => r.forecast.index.keys.length)) = some 0 ∧
    (0 : ℕ) ≠ 24 := by
  constructor
  · rfl
  · decide

/-- C1 as amended: with the estimation backends absent, `fit_arimax`
returns exactly `h` NaN markers, `fit_arimax_garch` returns a bundle
with both model handles absent and two `h`-long NaN forecasts, and
`fit_vecm_garch` returns a frame with the input's columns and `h`
all-missing rows - provided the input table has at least one column (a
columnless input yields a zero-row frame). -/
theorem c1_degraded_amended (series : Series) (exog : Option DataFrame)
    (order : ℤ × ℤ × ℤ) (garch_order : ℕ × ℕ) (h : ℕ) (df : DataFrame)
    (det : ℤ) (k : ℕ) (rank : Option ℕ) (hcols : df.cols ≠ []) :
    (fit_arimax none series exog order h).values =
      List.replicate h Cell.nan ∧
    (fit_arimax none series exog order h).values.length = h ∧
    (fit_arimax_garch none none series exog order garch_order h).mean_model =
      none ∧
    (fit_arimax_garch none none series exog order garch_order h).vol_model =
      none ∧
    (fit_arimax_garch none none series exog order garch_order
        h).forecast_mean.values = List.replicate h Cell.nan ∧
    (fit_arimax_garch none none series exog order garch_order
        h).forecast_vol.values = List.replicate h Cell.nan ∧
    fit_vecm_garch none df det k rank h =
      some { vecm_model := none,
             forecast :=
               { index := { keys := (List.range h).map PIdx.pos, freq := none },
                 cols := df.cols.map (fun c =>
                   (c.1, List.replicate h Cell.nan)) } } := by
  have hne : df.cols.isEmpty = false := by
    cases hc : df.cols with
    | nil => exact absurd hc hcols
    | cons a l => rfl
  refine ⟨rfl, by simp [fit_arimax, defaultSeries], rfl, rfl, rfl, rfl, ?_⟩
  simp [fit_vecm_garch, hne]

/-- Witness for `c1_degraded_amended` at a two-column table and horizon
24. -/
theorem c1_degraded_amended_witness :
    (fit_arimax none { index := [PIdx.ts 0], values := [Cell.num 1] } none
        (1, 0, 1) 24).values = List.replicate 24 Cell.nan ∧
    (fit_arimax none { index := [PIdx.ts 0], values := [Cell.num 1] } none
        (1, 0, 1) 24).values.length = 24 ∧
    (fit_arimax_garch none none { index := [PIdx.ts 0], values := [Cell.num 1] }
        none (1, 0, 1) (1, 1) 24).mean_model = none ∧
    (fit_arimax_garch none none { index := [PIdx.ts 0], values := [Cell.num 1] }
        none (1, 0, 1) (1, 1) 24).vol_model = none ∧
    (fit_arimax_garch none none { index := [PIdx.ts 0], values := [Cell.num 1] }
        none (1, 0, 1) (1, 1) 24).forecast_mean.values =
      List.replicate 24 Cell.nan ∧
    (fit_arimax_garch none none { index := [PIdx.ts 0], values := [Cell.num 1] }
        none (1, 0, 1) (1, 1) 24).forecast_vol.values =
      List.replicate 24 Cell.nan ∧
    fit_vecm_garch none
      { index := { keys := [PIdx.ts 0, PIdx.ts 1], freq := none },
        cols := [("spot", [Cell.num 1, Cell.num 2]),
                 ("futures", [Cell.num 3, Cell.num 4])] } 0 1 none 24 =
      some { vecm_model := none,
             forecast :=
               { index := { keys := (List.range 24).map PIdx.pos, freq := none },
                 cols := [("spot", [Cell.num 1, Cell.num 2]),
                          ("futures", [Cell.num 3, Cell.num 4])].map (fun c =>
                   (c.1, List.replicate 24 Cell.nan)) } } :=
  c1_degraded_amended { index := [PIdx.ts 0], values := [Cell.num 1] } none
    (1, 0, 1) (1, 1) 24
    { index := { keys := [PIdx.ts 0, PIdx.ts 1], freq := none },
      cols := [("spot", [Cell.num 1, Cell.num 2]),
               ("futures", [Cell.num 3, Cell.num 4])] } 0 1 none (by decide)

/-- Concrete two-column price table over 200 rows (hourly timestamps
0..199, no freq attribute set, as a CSV-loaded frame has). -/
def c3price : DataFrame :=
  { index := { keys := (List.range 200).map (fun i => PIdx.ts (i : ℤ)),
               freq := none },
    cols := [("spot", (List.range 200).map (fun i => Cell.num (i : ℚ))),
             ("futures", (List.range 200).map (fun i => Cell.num ((i : ℚ) + 1)))] }

/-- Counterexample to C3 as stated: on the 200-row two-column table with
the backend absent, the degraded forecast is indexed by the default
integer positions `0 .. 23` — every label is positional, none is a
timestamp, so the output is not indexed by 24 timestamps continuing the
input's frequency. -/
theorem c3_counterexample :
    ((fit_vecm_garch none c3price 0 1 none 24).map
        (fun (r : VecmGarchResult) => r.forecast.index.keys)) =
      some ((List.range 24).map PIdx.pos) ∧
    (((List.range 24).map PIdx.pos).all isPos) = true := by
  constructor
  · rfl
  · decide

/-- C3 as amended: for a two-column, 200-row input with the backend
absent, the degraded forecast table has 24 rows and 2 columns, every
value a missing marker, but it is indexed by the default integer
positions `0 .. 23`, not by future timestamps continuing the input's
frequency. -/
theorem c3_degraded_index_amended (df : DataFrame)
    (h2 : df.cols.length = 2) (_h200 : df.index.keys.length = 200) :
    fit_vecm_garch none df 0 1 none 24 =
      some { vecm_model := none,
             forecast :=
               { index := { keys := (List.range 24).map PIdx.pos, freq := none },
                 cols := df.cols.map (fun c =>
                   (c.1, List.replicate 24 Cell.nan)) } } ∧
    (df.cols.map (fun c => (c.1, List.replicate 24 Cell.nan))).length = 2 ∧
    ((List.range 24).map PIdx.pos).length = 24 ∧
    ((List.range 24).map PIdx.pos).all isPos = true ∧
    (df.cols.map (fun c => (c.1, List.replicate 24 Cell.nan))).all
      (fun c => c.2.all (fun v => v == Cell.nan)) = true := by
  have hne : df.cols.isEmpty = false := by
    cases hc : df.cols with
    | nil => rw [hc] at h2; simp at h2
    | cons a l => rfl
  refine ⟨by simp [fit_vecm_garch, hne], by simp [h2], by simp, by decide, ?_⟩
  rw [List.all_eq_true]
  intro c hc
  rcases List.mem_map.mp hc with ⟨c0, hc0, hceq⟩
  subst hceq
  rw [List.all_eq_true]
  intro v hv
  rcases List.eq_of_mem_replicate hv with rfl
  rfl

set_option maxRecDepth 4000 in
/-- Witness for `c3_degraded_index_amended` at the concrete table
`c3price`. -/
theorem c3_degraded_index_amended_witness :
    fit_vecm_garch none c3price 0 1 none 24 =
      some { vecm_model := none,
             forecast :=
               { index := { keys := (List.range 24).map PIdx.pos, freq := none },
                 cols := c3price.cols.map (fun c =>
                   (c.1, List.replicate 24 Cell.nan)) } } ∧
    (c3price.cols.map (fun c => (c.1, List.replicate 24 Cell.nan))).length = 2 ∧
    ((List.range 24).map PIdx.pos).length = 24 ∧
    ((List.range 24).map PIdx.pos).all isPos = true ∧
    (c3price.cols.map (fun c => (c.1, List.replicate 24 Cell.nan))).all
      (fun c => c.2.all (fun v => v == Cell.nan)) = true :=
  c3_degraded_index_amended c3price (by rfl) (by decide)

/-- C5: forward-fill alignment (as the orchestrator uses it,
`exog.reindex(price_df.index, method="ffill")`) is idempotent — on a
well-formed table (strictly increasing index, columns as long as the
index) re-aligning onto the table's own index returns the table
unchanged — and it never invents values: every cell of any re-aligned
table is either the missing marker or a value already present in some
source column. -/
theorem c5_reindex_idempotent (df : DataFrame)
    (hs : strictSorted df.index.keys = true)
    (hlen : ∀ c ∈ df.cols, c.2.length = df.index.keys.length) :
    reindexFfill df df.index = some df ∧
    (∀ target : DFIndex, ∀ out : DataFrame,
      reindexFfill df target = some out →
      ∀ p ∈ out.cols, ∀ v ∈ p.2,
        v = Cell.nan ∨ ∃ q ∈ df.cols, v ∈ q.2) := by
  have hcols : df.cols.map (fun c =>
      (c.1, df.index.keys.map (ffillLookup df.index.keys c.2))) = df.cols := by
    have hpt : ∀ c ∈ df.cols,
        (c.1, df.index.keys.map (ffillLookup df.index.keys c.2)) = c := by
      intro c hc
      have hlc := hlen c hc
      have hvals : df.index.keys.map (ffillLookup df.index.keys c.2) = c.2 := by
        apply List.ext_getElem
        · simp [hlc]
        · intro i h1 h2
          rw [List.getElem_map]
          exact ffillLookup_self df.index.keys c.2 hs hlc i
            (by simpa using h1) h2
      rw [hvals]
    calc df.cols.map (fun c =>
          (c.1, df.index.keys.map (ffillLookup df.index.keys c.2)))
        = df.cols.map id := List.map_congr_left hpt
      _ = df.cols := List.map_id df.cols
  constructor
  · unfold reindexFfill
    simp [hs, hcols]
  · intro target out hout p hp v hv
    unfold reindexFfill at hout
    simp only [hs, if_true] at hout
    have hout2 : out =
        { index := target,
          cols := df.cols.map (fun c =>
            (c.1, target.keys.map (ffillLookup df.index.keys c.2))) } :=
      (Option.some.inj hout).symm
    subst hout2
    rcases List.mem_map.mp hp with ⟨c, hc, rfl⟩
    rcases List.mem_map.mp hv with ⟨t, ht, rfl⟩
    rcases ffillLookup_mem df.index.keys c.2 t with hnan | hmem
    · left
      exact hnan
    · right
      exact ⟨c, hc, hmem⟩

/-- Aligned degree-day fixture for the witness of
`c5_reindex_idempotent`. -/
def c5df : DataFrame :=
  { index := { keys := [PIdx.ts 0, PIdx.ts 2, PIdx.ts 5], freq := none },
    cols := [("HDD", [Cell.num 1, Cell.nan, Cell.num 3]),
             ("CDD", [Cell.num 0, Cell.num 2, Cell.num 4])] }

/-- Witness for `c5_reindex_idempotent` at the fixture table. -/
theorem c5_reindex_idempotent_witness :
    reindexFfill c5df c5df.index = some c5df ∧
    (∀ target : DFIndex, ∀ out : DataFrame,
      reindexFfill c5df target = some out →
      ∀ p ∈ out.cols, ∀ v ∈ p.2,
        v = Cell.nan ∨ ∃ q ∈ c5df.cols, v ∈ q.2) :=
  c5_reindex_idempotent c5df (by decide) (by decide)

lemma strictSorted_map_ts (l : List ℤ) :
    strictSorted (l.map PIdx.ts) = strictSortedZ l := by
  induction l with
  | nil => rfl
  | cons a rest ih =>
    cases rest with
    | nil => rfl
    | cons b rest2 =>
      show strictSorted (PIdx.ts a :: PIdx.ts b :: rest2.map PIdx.ts) =
        strictSortedZ (a :: b :: rest2)
      unfold strictSorted strictSortedZ
      rw [show strictSorted (PIdx.ts b :: rest2.map PIdx.ts) =
            strictSortedZ (b :: rest2) from ih]
      rfl

lemma all_cellNumeric_map (l : List Cell) :
    (l.map toNumericCell).all cellNumeric = true := by
  rw [List.all_eq_true]
  intro v hv
  rcases List.mem_map.mp hv with ⟨v0, hv0, rfl⟩
  cases v0 <;> rfl

/-- A table holds a non-numeric text cell in some value column. -/
def dfHasStr (df : DataFrame) : Bool :=
  df.cols.any (fun c => c.2.any (fun v => !cellNumeric v))

/-- Counterexample to C6 as stated: the loaders enforce no invariant.
A price file with timestamps out of order (5 before 3) loads into a
table whose index is not strictly increasing, and a weather file with a
text column besides `temperature` loads into a table that still holds
non-numeric text cells. -/
theorem c6_counterexample :
    strictSorted (load_price_data
        { index := [5, 3],
          cols := [("p", [Cell.num 1, Cell.num 2])] }).index.keys = false ∧
    ((load_weather_data
        { index := [0, 1],
          cols := [("temperature", [Cell.num 20, Cell.str "oops"]),
                   ("note", [Cell.str "cold", Cell.str "warm"])] }).map
      dfHasStr) = some true := by
  decide

/-- C6 as amended: the loaders keep the file's row order, so the loaded
index is strictly increasing exactly when the file's timestamps are;
`load_price_data` coerces every value column (each malformed cell
degrading to the missing marker, never raising), while
`load_weather_data` coerces the `temperature` column only, leaving any
other column untouched. -/
theorem c6_loaders_amended (raw rawW : RawTable) (df : DataFrame)
    (hw : load_weather_data rawW = some df) :
    ((load_price_data raw).cols.all (fun c => c.2.all cellNumeric)) = true ∧
    (load_price_data raw).index.keys = raw.index.map PIdx.ts ∧
    strictSorted (load_price_data raw).index.keys = strictSortedZ raw.index ∧
    ((getCol df "temperature").getD []).all cellNumeric = true := by
  refine ⟨?_, rfl, strictSorted_map_ts raw.index, ?_⟩
  · rw [List.all_eq_true]
    intro c hc
    rcases List.mem_map.mp hc with ⟨c0, hc0, rfl⟩
    exact all_cellNumeric_map c0.2
  · unfold load_weather_data at hw
    by_cases hany : rawW.cols.any (fun c => c.1 == "temperature") = true
    · rw [if_pos hany] at hw
      have hdf : df =
          { index := { keys := rawW.index.map PIdx.ts, freq := none },
            cols := rawW.cols.map (fun c =>
              if c.1 == "temperature" then (c.1, c.2.map toNumericCell)
              else c) } := (Option.some.inj hw).symm
      subst hdf
      unfold getCol
      rw [List.find?_map]
      have hpred : (fun c : String × List Cell =>
          (if c.1 == "temperature" then (c.1, c.2.map toNumericCell)
           else c).1 == "temperature") =
          (fun c : String × List Cell => c.1 == "temperature") := by
        funext c
        cases hb : c.1 == "temperature" with
        | false => simp [hb]
        | true => simp [hb]
      simp only [Function.comp_def]
      rw [hpred]
      cases hf : rawW.cols.find? (fun c => c.1 == "temperature") with
      | none => rfl
      | some c0 =>
        have he : c0.1 = "temperature" := by simpa using List.find?_some hf
        simpa [he] using all_cellNumeric_map c0.2
    · rw [if_neg hany] at hw
      cases hw

/-- Weather file fixture for the witness of `c6_loaders_amended`. -/
def c6weatherRaw : RawTable :=
  { index := [0, 1],
    cols := [("temperature", [Cell.num 20, Cell.str "oops"]),
             ("note", [Cell.str "cold", Cell.str "warm"])] }

/-- The table `load_weather_data` produces from `c6weatherRaw`. -/
def c6weatherLoaded : DataFrame :=
  { index := { keys := [PIdx.ts 0, PIdx.ts 1], freq := none },
    cols := [("temperature", [Cell.num 20, Cell.nan]),
             ("note", [Cell.str "cold", Cell.str "warm"])] }

/-- Price file fixture for the witness of `c6_loaders_amended`. -/
def c6priceRaw : RawTable :=
  { index := [0, 1], cols := [("p", [Cell.num 1, Cell.str "x"])] }

/-- Witness for `c6_loaders_amended` at the fixtures. -/
theorem c6_loaders_amended_witness :
    ((load_price_data c6priceRaw).cols.all
      (fun c => c.2.all cellNumeric)) = true ∧
    (load_price_data c6priceRaw).index.keys = c6priceRaw.index.map PIdx.ts ∧
    strictSorted (load_price_data c6priceRaw).index.keys =
      strictSortedZ c6priceRaw.index ∧
    ((getCol c6weatherLoaded "temperature").getD []).all cellNumeric = true :=
  c6_loaders_amended c6priceRaw c6weatherRaw c6weatherLoaded (by decide)

/-- C7: whenever `run_pipeline` completes, its multivariate forecast
field is populated exactly when the loaded price table has more than one
column; with exactly one price column that field is explicitly absent
while the ARIMAX and ARIMAX-GARCH forecast fields are still populated. -/
theorem c7_vecm_dispatch (arimaBackend : Option ArimaBackend)
    (archBackend : Option ArchBackend) (vecmBackend : Option VecmBackend)
    (priceRaw weatherRaw : RawTable) (sentimentRaw : Option RawTable)
    (forecast_steps : ℕ) (res : PipelineResult)
    (h : run_pipeline arimaBackend archBackend vecmBackend priceRaw
      weatherRaw sentimentRaw forecast_steps = some res) :
    (res.vecm_forecast.isSome = true ↔
      1 < (load_price_data priceRaw).cols.length) ∧
    ((load_price_data priceRaw).cols.length = 1 →
      res.vecm_forecast = none) ∧
    res.arimax_forecast.isSome = true ∧
    res.arimax_garch_mean.isSome = true ∧
    res.arimax_garch_vol.isSome = true := by
  simp only [run_pipeline] at h
  rw [Option.bind_eq_some] at h
  obtain ⟨wdf, hw, h⟩ := h
  rw [Option.bind_eq_some] at h
  obtain ⟨tv, htv, h⟩ := h
  rw [Option.bind_eq_some] at h
  obtain ⟨dd, hdd, h⟩ := h
  rw [Option.bind_eq_some] at h
  obtain ⟨exog0, hex0, h⟩ := h
  rw [Option.bind_eq_some] at h
  obtain ⟨exog, hex, h⟩ := h
  rw [Option.bind_eq_some] at h
  obtain ⟨target, htg, h⟩ := h
  rw [Option.map_eq_some'] at h
  obtain ⟨vf, hvf, hres⟩ := h
  subst hres
  by_cases hgt : 1 < (load_price_data priceRaw).cols.length
  · rw [if_pos hgt] at hvf
    rw [Option.map_eq_some'] at hvf
    obtain ⟨r, hr, hvf⟩ := hvf
    subst hvf
    exact ⟨⟨fun _ => hgt, fun _ => rfl⟩,
      fun h1 => absurd hgt (by omega), rfl, rfl, rfl⟩
  · rw [if_neg hgt] at hvf
    have hvn : vf = none := (Option.some.inj hvf).symm
    subst hvn
    exact ⟨⟨fun hx => by simp at hx, fun hx => absurd hx hgt⟩,
      fun _ => rfl, rfl, rfl, rfl⟩

/-- Price and weather fixtures for the witness of `c7_vecm_dispatch`:
one price column, so the multivariate stage is skipped. -/
def c7priceRaw : RawTable :=
  { index := [0, 1, 2],
    cols := [("p", [Cell.num 10, Cell.num 11, Cell.num 12])] }

/-- Weather fixture for the witness of `c7_vecm_dispatch`. -/
def c7weatherRaw : RawTable :=
  { index := [0, 1, 2],
    cols := [("temperature", [Cell.num 20, Cell.num 15, Cell.num 17])] }

/-- The bundle `run_pipeline` produces from the fixtures with every
backend absent. -/
def c7res : PipelineResult :=
  { arimax_forecast := some (defaultSeries (List.replicate 24 Cell.nan)),
    arimax_garch_mean := some (defaultSeries (List.replicate 24 Cell.nan)),
    arimax_garch_vol := some (defaultSeries (List.replicate 24 Cell.nan)),
    vecm_forecast := none }

/-- Witness for `c7_vecm_dispatch` at the fixtures. -/
theorem c7_vecm_dispatch_witness :
    (c7res.vecm_forecast.isSome = true ↔
      1 < (load_price_data c7priceRaw).cols.length) ∧
    ((load_price_data c7priceRaw).cols.length = 1 →
      c7res.vecm_forecast = none) ∧
    c7res.arimax_forecast.isSome = true ∧
    c7res.arimax_garch_mean.isSome = true ∧
    c7res.arimax_garch_vol.isSome = true :=
  c7_vecm_dispatch none none none c7priceRaw c7weatherRaw none 24 c7res
    (by decide)
